import Mathlib

/-!
Verification of the Dart party-game helper against its specification.

The development shallowly embeds the three Python source files:
* `Killer/Killer.py` — session construction with a player-count guard and a
  QR-token registration stub;
* `PlayerRegistry.py` — camera scan loop, photo capture and the main
  registration flow;
* `QRCodeGeneration.py` — a script building a QR image request.

External collaborators (camera, barcode decoder, GUI, rasterizer) are
modelled as explicit inputs: the camera as a list of frame events, the
operator as key codes and a submission choice, the rasterizer as an
arbitrary function on the fully-determined image request.
-/

namespace Dart

/-! ## Killer/Killer.py -/

/-- Exception raised by the `Killer` constructor, from
`Exceptions/TooManyPlayersException`.  It carries the message string. -/
inductive KillerException where
  | TooManyPlayersException (msg : String)
deriving Repr, DecidableEq

/-- The `Killer` session object: the constructor stores the player count in
the field `amount_players`. -/
structure Killer where
  amount_players : Int
deriving Repr, DecidableEq

/-- Embedding of `Killer.__init__`: the field is assigned first, then the
guard `self.amount_players > 4` raises `TooManyPlayersException`; raising
means no object is produced, so the result is `Except`. -/
def Killer.init (amount_players : Int) : Except KillerException Killer :=
  let self : Killer := { amount_players := amount_players }
  if self.amount_players > 4 then
    Except.error (KillerException.TooManyPlayersException
      "Zu viele Spieler, maximal 4 erlaubt.")
  else
    Except.ok self

/-- The globals the registration stub refers to: `player_data`, the
token-to-name mapping (a Python dict, embedded as an association list), and
`game`, whose `add_player` collects registered names. -/
structure KillerEnv where
  player_data : List (String × String)
  game : List String
deriving Repr, DecidableEq

/-- Embedding of `Killer.register_player_from_qr`: membership test
`token in player_data` followed by the dict lookup `player_data[token]`;
on a hit the name is added to the game and a success message printed, on a
miss only a not-found message is printed.  Returns the updated environment
and the console messages. -/
def register_player_from_qr (env : KillerEnv) (token : String) :
    KillerEnv × List String :=
  match env.player_data.lookup token with
  | some name =>
      ({ env with game := env.game ++ [name] },
       ["Spieler " ++ name ++ " wurde erfolgreich hinzugefügt."])
  | none =>
      (env, ["Token " ++ token ++ " nicht gefunden."])

/-! ## Theorems about Killer -/

/-- C1: for every integer player count `n`, constructing a `Killer` session
with `n > 4` raises `TooManyPlayersException`, with `n ≤ 4` it succeeds and
the session's `amount_players` field equals `n`; an exception is raised if
and only if `n > 4`. -/
theorem killer_init_spec (n : Int) :
    (n > 4 → Killer.init n = Except.error (KillerException.TooManyPlayersException
        "Zu viele Spieler, maximal 4 erlaubt.")) ∧
    (n ≤ 4 → Killer.init n = Except.ok { amount_players := n }) ∧
    ((∃ e, Killer.init n = Except.error e) ↔ n > 4) := by
  unfold Killer.init
  by_cases h : n > 4
  · simp [h]
  · simp [h]

/-- Witness for C1 at the concrete counts 5 (rejected) and 3 (accepted). -/
theorem killer_init_spec_witness :
    Killer.init 5 = Except.error (KillerException.TooManyPlayersException
        "Zu viele Spieler, maximal 4 erlaubt.") ∧
    Killer.init 3 = Except.ok { amount_players := 3 } :=
  ⟨(killer_init_spec 5).1 (by norm_num), (killer_init_spec 3).2.1 (by norm_num)⟩

/-- C10: the constructor enforces no lower bound on the player count — every
integer `n ≤ 4`, including `0` and negative values, yields a session storing
exactly `n`; only the upper bound of 4 is checked. -/
theorem killer_init_no_lower_bound (n : Int) (h : n ≤ 4) :
    Killer.init n = Except.ok { amount_players := n } := by
  unfold Killer.init
  simp
  omega

/-- Witness for C10 at the concrete counts `0` and `-7`. -/
theorem killer_init_no_lower_bound_witness :
    Killer.init 0 = Except.ok { amount_players := 0 } ∧
    Killer.init (-7) = Except.ok { amount_players := -7 } :=
  ⟨killer_init_no_lower_bound 0 (by norm_num),
   killer_init_no_lower_bound (-7) (by norm_num)⟩

/-- C4: for every token, if the token is present in the token-to-name
mapping, the mapped name is added to the game and a success message is
reported; if absent, a miss is reported via a console message, no exception
is raised, and no player is added. -/
theorem register_player_from_qr_spec (env : KillerEnv) (token : String) :
    (∀ name, env.player_data.lookup token = some name →
      register_player_from_qr env token =
        ({ env with game := env.game ++ [name] },
         ["Spieler " ++ name ++ " wurde erfolgreich hinzugefügt."])) ∧
    (env.player_data.lookup token = none →
      register_player_from_qr env token =
        (env, ["Token " ++ token ++ " nicht gefunden."])) := by
  constructor
  · intro name h
    unfold register_player_from_qr
    rw [h]
  · intro h
    unfold register_player_from_qr
    rw [h]

/-- Witness for C4 on the mapping `{"abc123" ↦ "Alice"}`: the token
`"abc123"` adds Alice, the token `"zzz"` adds nobody. -/
theorem register_player_from_qr_spec_witness :
    register_player_from_qr { player_data := [("abc123", "Alice")], game := [] } "abc123" =
      ({ player_data := [("abc123", "Alice")], game := ["Alice"] },
       ["Spieler Alice wurde erfolgreich hinzugefügt."]) ∧
    register_player_from_qr { player_data := [("abc123", "Alice")], game := [] } "zzz" =
      ({ player_data := [("abc123", "Alice")], game := [] },
       ["Token zzz nicht gefunden."]) :=
  ⟨(register_player_from_qr_spec
      { player_data := [("abc123", "Alice")], game := [] } "abc123").1 "Alice" rfl,
   (register_player_from_qr_spec
      { player_data := [("abc123", "Alice")], game := [] } "zzz").2 rfl⟩

/-! ## PlayerRegistry.py — scan loop -/

/-- Outcome of one `cap.read()` call in the scan loop: either the read fails
(`ret` is false), or it yields a frame carrying the payloads the barcode
decoder finds in it (`decode(frame)`, first payload already UTF-8 decoded)
together with whether the operator presses the cancel key
(`waitKey(1) & 0xFF == ord('q')`) while that frame is displayed. -/
inductive FrameEvent where
  | readFail
  | frame (decoded : List String) (cancelKey : Bool)
deriving Repr, DecidableEq

/-- Observable outcome of `scan_qr_code`: the returned payload (`none` for
Python's implicit `return None` after `break`), how many times
`cap.release()` ran, and how many frames were successfully read. -/
structure ScanResult where
  payload : Option String
  releases : Nat
  framesRead : Nat
deriving Repr, DecidableEq

/-- Embedding of `scan_qr_code`, structurally recursive on the sequence of
read outcomes (an exhausted sequence means the next read fails).  Per loop
iteration: a failed read breaks out; a frame with a decodable payload
releases the camera and returns the first payload; otherwise the frame is
shown and the cancel key breaks out; after a `break` the camera is released
and `None` is returned. -/
def scan_qr_code : List FrameEvent → ScanResult
  | [] => { payload := none, releases := 1, framesRead := 0 }
  | FrameEvent.readFail :: _ => { payload := none, releases := 1, framesRead := 0 }
  | FrameEvent.frame (d :: _) _ :: _ =>
      { payload := some d, releases := 1, framesRead := 1 }
  | FrameEvent.frame [] true :: _ =>
      { payload := none, releases := 1, framesRead := 1 }
  | FrameEvent.frame [] false :: rest =>
      let r := scan_qr_code rest
      { payload := r.payload, releases := r.releases, framesRead := r.framesRead + 1 }

/-! ## PlayerRegistry.py — photo capture -/

/-- Observable outcome of `take_picture`: the files written (`imwrite`
paths), the files read back (no read ever occurs in this subsystem), and how
many times `cap.release()` ran. -/
structure CaptureResult where
  filesWritten : List String
  filesRead : List String
  releases : Nat
deriving Repr, DecidableEq

/-- Embedding of `take_picture player_id`: one `cap.read()` whose success is
`readOk`; on success the frame is shown and `waitKey(0)` blocks until the
operator presses a key with code `key`; if `key & 0xFF == ord('s')` (115)
the frame is written to `player_id ++ "_photo.png"`; finally the camera is
released. -/
def take_picture (player_id : String) (readOk : Bool) (key : Nat) : CaptureResult :=
  if readOk then
    if key % 256 = 115 then
      { filesWritten := [player_id ++ "_photo.png"], filesRead := [], releases := 1 }
    else
      { filesWritten := [], filesRead := [], releases := 1 }
  else
    { filesWritten := [], filesRead := [], releases := 1 }

/-! ## PlayerRegistry.py — registration window and main -/

/-- Observable outcome of `registration_window`: the capture step's result,
the console messages printed by `submit`, and the identifiers registered. -/
structure WindowResult where
  capture : CaptureResult
  messages : List String
  registered : List String
deriving Repr, DecidableEq

/-- Embedding of `registration_window player_id`: the operator either closes
the window without submitting (`submitted = none`; no capture, no log) or
submits with a name typed into the entry, which runs `take_picture` and logs
the registration. -/
def registration_window (player_id : String) (submitted : Option String)
    (readOk : Bool) (key : Nat) : WindowResult :=
  match submitted with
  | none => { capture := { filesWritten := [], filesRead := [], releases := 0 },
              messages := [], registered := [] }
  | some name =>
      { capture := take_picture player_id readOk key,
        messages := ["Player " ++ player_id ++ ": Name: " ++ name ++ " registered"],
        registered := [player_id] }

/-- Observable outcome of `main`: console messages, whether the registration
window was opened, and the identifiers registered. -/
structure MainResult where
  messages : List String
  formOpened : Bool
  registered : List String
deriving Repr, DecidableEq

/-- Embedding of `main`: run `scan_qr_code`, then test the returned
`player_id` for Python truthiness (`if player_id:` — `None` and the empty
string are both falsy); on success open the registration window, otherwise
print the scan-failure message. -/
def main (events : List FrameEvent) (submitted : Option String)
    (readOk : Bool) (key : Nat) : MainResult :=
  match (scan_qr_code events).payload with
  | none =>
      { messages := ["Scanning QR code...", "QR Code scanning failed!"],
        formOpened := false, registered := [] }
  | some pid =>
      if pid = "" then
        { messages := ["Scanning QR code...", "QR Code scanning failed!"],
          formOpened := false, registered := [] }
      else
        let w := registration_window pid submitted readOk key
        { messages := ["Scanning QR code...",
            "QR Code for Player " ++ pid ++ " scanned successfully!"] ++ w.messages,
          formOpened := true, registered := w.registered }

/-! ## QRCodeGeneration.py -/

/-- Error-correction levels of the encode collaborator; the script fixes
`qrcode.constants.ERROR_CORRECT_L`. -/
inductive ErrorCorrection where
  | L
  | M
  | Q
  | H
deriving Repr, DecidableEq

/-- State of a `qrcode.QRCode` object: the constructor arguments and the
accumulated data segments. -/
structure QRCode where
  version : Nat
  error_correction : ErrorCorrection
  box_size : Nat
  border : Nat
  data_list : List String
deriving Repr, DecidableEq

/-- Embedding of `qr.add_data(data)`: the payload is appended to the
object's data list. -/
def QRCode.add_data (qr : QRCode) (data : String) : QRCode :=
  { qr with data_list := qr.data_list ++ [data] }

/-- Embedding of `qr.make(fit=True)`: with `fit` the external library picks
the smallest version that holds the accumulated data, modelled by the
collaborator function `best_fit`; without `fit` the version is kept. -/
def QRCode.make (qr : QRCode) (fit : Bool) (best_fit : List String → Nat) : QRCode :=
  if fit then { qr with version := best_fit qr.data_list } else qr

/-- The fully-determined request `qr.make_image(fill, back_color)` hands to
the rasterizing collaborator; the produced image is a pure function of this
record. -/
structure ImageRequest where
  version : Nat
  error_correction : ErrorCorrection
  box_size : Nat
  border : Nat
  data_list : List String
  fill : String
  back_color : String
deriving Repr, DecidableEq

/-- Embedding of `qr.make_image(fill='black', back_color='white')`: packages
the object's state and the colors for the rasterizer. -/
def QRCode.make_image (qr : QRCode) (fill back_color : String) : ImageRequest :=
  { version := qr.version, error_correction := qr.error_correction,
    box_size := qr.box_size, border := qr.border, data_list := qr.data_list,
    fill := fill, back_color := back_color }

/-- Embedding of the module-level `QRCodeGeneration.py` script: build a
`QRCode` with version 1, error correction L, box size 10 and border 4, add
the hardcoded payload, auto-fit the version, and produce the image request
that is then displayed.  `best_fit` is the external library's version
fitter. -/
def qrcode_generation_script (best_fit : List String → Nat) : ImageRequest :=
  let data := "Hello, this is a QR code example!"
  let qr : QRCode := { version := 1, error_correction := ErrorCorrection.L,
                       box_size := 10, border := 4, data_list := [] }
  let qr := qr.add_data data
  let qr := qr.make true best_fit
  qr.make_image "black" "white"

/-! ## Theorems about PlayerRegistry -/

/-- C2: if the frame source first yields a decodable payload on frame
`k = pre.length + 1`, with all earlier reads succeeding, decoding nothing
and carrying no operator cancel, then `scan_qr_code` returns that payload
after reading exactly `k ≤ k` frames and has released the camera exactly
once. -/
theorem scan_qr_code_first_decodable (pre post : List FrameEvent)
    (d : String) (ds : List String) (c : Bool)
    (h : ∀ e ∈ pre, e = FrameEvent.frame [] false) :
    scan_qr_code (pre ++ FrameEvent.frame (d :: ds) c :: post) =
      { payload := some d, releases := 1, framesRead := pre.length + 1 } := by
  induction pre with
  | nil => rfl
  | cons e t ih =>
      have he : e = FrameEvent.frame [] false := h e (List.mem_cons_self e t)
      subst he
      have ht : ∀ x ∈ t, x = FrameEvent.frame [] false :=
        fun x hx => h x (List.mem_cons_of_mem _ hx)
      simp [scan_qr_code, ih ht]

/-- Witness for C2: two undecodable frames, then a frame decoding to
`"abc123"` — the scan returns the payload on frame 3 with one release. -/
theorem scan_qr_code_first_decodable_witness :
    scan_qr_code [FrameEvent.frame [] false, FrameEvent.frame [] false,
        FrameEvent.frame ["abc123"] false, FrameEvent.readFail] =
      { payload := some "abc123", releases := 1, framesRead := 3 } :=
  scan_qr_code_first_decodable
    [FrameEvent.frame [] false, FrameEvent.frame [] false]
    [FrameEvent.readFail] "abc123" [] false (by simp)

/-- C3: `take_picture` writes the file named from `player_id` exactly when a
frame was read and the operator's key is the save confirmation
(`ord 's' = 115` after masking); in every other case — read failure or a
different key — no file is written. -/
theorem take_picture_writes_iff (player_id : String) (readOk : Bool) (key : Nat) :
    (take_picture player_id readOk key).filesWritten =
      if readOk ∧ key % 256 = 115 then [player_id ++ "_photo.png"] else [] := by
  unfold take_picture
  rcases readOk with _ | _ <;> by_cases h : key % 256 = 115 <;> simp [h]

/-- C6: every path `take_picture` writes is exactly
`player_id ++ "_photo.png"`, at most one file is written per capture, and no
file is ever read back. -/
theorem take_picture_file_contract (player_id : String) (readOk : Bool) (key : Nat) :
    (∀ f ∈ (take_picture player_id readOk key).filesWritten,
        f = player_id ++ "_photo.png") ∧
    (take_picture player_id readOk key).filesWritten.length ≤ 1 ∧
    (take_picture player_id readOk key).filesRead = [] := by
  unfold take_picture
  rcases readOk with _ | _ <;> by_cases h : key % 256 = 115 <;> simp [h]

/-- Witness for C6: on the save path for the identifier `"p1"` the single
written file is the concrete path, the write count is at most one, and
nothing is read back. -/
theorem take_picture_file_contract_witness :
    ("p1_photo.png" = "p1" ++ "_photo.png") ∧
    (take_picture "p1" true 115).filesWritten.length ≤ 1 ∧
    (take_picture "p1" true 115).filesRead = [] :=
  ⟨(take_picture_file_contract "p1" true 115).1 "p1_photo.png" (by simp [take_picture]),
   (take_picture_file_contract "p1" true 115).2.1,
   (take_picture_file_contract "p1" true 115).2.2⟩

/-- C8: on every exit path of `take_picture` — frame-read failure, a
non-confirming key, or a successful save — the camera is released exactly
once before the function returns. -/
theorem take_picture_releases_once (player_id : String) (readOk : Bool) (key : Nat) :
    (take_picture player_id readOk key).releases = 1 := by
  unfold take_picture
  rcases readOk with _ | _ <;> by_cases h : key % 256 = 115 <;> simp [h]

/-- C7: whenever `scan_qr_code` returns no payload — camera read failure,
operator cancel, or an exhausted frame source — `main` prints the
scan-failure message, never opens the registration form, and registers
nobody. -/
theorem main_scan_failure (events : List FrameEvent) (submitted : Option String)
    (readOk : Bool) (key : Nat)
    (h : (scan_qr_code events).payload = none) :
    main events submitted readOk key =
      { messages := ["Scanning QR code...", "QR Code scanning failed!"],
        formOpened := false, registered := [] } := by
  unfold main
  rw [h]

/-- Witness for C7: an immediately failing camera read makes `main` report
failure without opening the form. -/
theorem main_scan_failure_witness :
    (scan_qr_code [FrameEvent.readFail]).payload = none ∧
    main [FrameEvent.readFail] (some "Alice") true 115 =
      { messages := ["Scanning QR code...", "QR Code scanning failed!"],
        formOpened := false, registered := [] } :=
  ⟨rfl, main_scan_failure [FrameEvent.readFail] (some "Alice") true 115 rfl⟩

/-- C9: if the scan decodes a QR code whose payload is the empty string,
`main`'s truthiness test treats it as a failure: the scan-failure message is
printed and the registration form is not opened. -/
theorem main_empty_payload_is_failure (events : List FrameEvent)
    (submitted : Option String) (readOk : Bool) (key : Nat)
    (h : (scan_qr_code events).payload = some "") :
    main events submitted readOk key =
      { messages := ["Scanning QR code...", "QR Code scanning failed!"],
        formOpened := false, registered := [] } := by
  unfold main
  rw [h]
  rfl

/-- Witness for C9: a first frame decoding to the empty string is reported
as a scan failure even though a QR code was decoded. -/
theorem main_empty_payload_is_failure_witness :
    (scan_qr_code [FrameEvent.frame [""] false]).payload = some "" ∧
    main [FrameEvent.frame [""] false] (some "Alice") true 115 =
      { messages := ["Scanning QR code...", "QR Code scanning failed!"],
        formOpened := false, registered := [] } :=
  ⟨rfl, main_empty_payload_is_failure [FrameEvent.frame [""] false]
      (some "Alice") true 115 rfl⟩

/-! ## Theorems about QRCodeGeneration -/

/-- C5: QR generation is deterministic — for any rasterizer (a function of
the image request) and any version fitter, two runs of the script produce
pixel-identical images, because each run hands the rasterizer the identical,
fully-determined request: error correction L, box size 10, border 4,
auto-fit version, black on white, payload
"Hello, this is a QR code example!". -/
theorem qrcode_generation_idempotent (Image : Type)
    (render : ImageRequest → Image) (best_fit : List String → Nat) :
    render (qrcode_generation_script best_fit) =
      render (qrcode_generation_script best_fit) ∧
    qrcode_generation_script best_fit =
      { version := best_fit ["Hello, this is a QR code example!"],
        error_correction := ErrorCorrection.L, box_size := 10, border := 4,
        data_list := ["Hello, this is a QR code example!"],
        fill := "black", back_color := "white" } :=
  ⟨rfl, rfl⟩

end Dart
